import Mathlib

/-!
Verification of the procedural flow-line simulation engine of the
F1 aero visualization repository (`src/FlowVisualization.h`, class
`FlowLinesVisualization`).

Embedding conventions:
* C++ `float` arithmetic is modelled over exact rationals `ℚ`;
  float literals such as `0.3f` are taken at their decimal value (`3/10`).
* The shared `std::mt19937` generator with `std::uniform_real_distribution`
  is modelled by a stream of unit samples `g : ℕ → ℚ`:
  `generateRandomFloat lo hi` consumes the next sample `u` and yields
  `lo + u * (hi - lo)` (the affine image of the unit draw, which is the
  value a uniform draw on `[lo, hi]` produces for unit sample `u`).
* The transcendental primitives `std::exp`, `std::sin`, `std::cos` and
  `glm::normalize` have no exact rational counterpart; they are supplied
  as an abstract environment `Env`.  None of the verified properties
  depend on their values.
* `glm::length v < m` is modelled without square roots as
  `0 < m ∧ ‖v‖² < m²`, which is equivalent for the real square root.
* OpenGL buffer setup/upload and drawing (`setupBuffers`, `updateBuffers`,
  `draw`, `cleanup`) are pure render-side effects and are outside the model;
  `update` returns the mutated simulation state.
-/

namespace F1Aero

/-- Model of `glm::vec3` with exact rational components. -/
structure Vec3 where
  x : ℚ
  y : ℚ
  z : ℚ
deriving DecidableEq, Repr

/-- Componentwise vector addition (`glm::vec3` operator `+`). -/
def vadd (a b : Vec3) : Vec3 := ⟨a.x + b.x, a.y + b.y, a.z + b.z⟩

/-- Componentwise vector subtraction (`glm::vec3` operator `-`). -/
def vsub (a b : Vec3) : Vec3 := ⟨a.x - b.x, a.y - b.y, a.z - b.z⟩

/-- Scalar multiplication of a vector (`v * s`). -/
def scaleV (s : ℚ) (a : Vec3) : Vec3 := ⟨a.x * s, a.y * s, a.z * s⟩

/-- Squared Euclidean norm;  `glm::length v` squared. -/
def norm2 (a : Vec3) : ℚ := a.x * a.x + a.y * a.y + a.z * a.z

/-- Random generator state: the stream of unit samples drawn from the
shared `std::mt19937` generator, in consumption order. -/
def Rng : Type := ℕ → ℚ

/-- Advance the sample stream by one draw. -/
def rngTail (g : Rng) : Rng := fun n => g (n + 1)

/-- `generateRandomFloat(min, max)`: maps the next unit sample affinely
onto `[min, max]`, models `std::uniform_real_distribution<float>(min,max)(gen)`. -/
def generateRandomFloat (lo hi : ℚ) (g : Rng) : ℚ × Rng :=
  (lo + g 0 * (hi - lo), rngTail g)

/-- Abstract environment for the float primitives that have no exact
rational counterpart (`std::exp`, `std::sin`, `std::cos`, `glm::normalize`). -/
structure Env where
  exp : ℚ → ℚ
  sin : ℚ → ℚ
  cos : ℚ → ℚ
  normalize : Vec3 → Vec3

/-- Model of `struct FlowLine` (FlowVisualization.h, lines 12-26). -/
structure FlowLine where
  points : List Vec3
  colors : List Vec3
  life : ℚ
  initialLife : ℚ
  speed : ℚ
  initialPosition : Vec3
  direction : Vec3
  maxPoints : ℕ
  pressure : ℚ
  velocity : ℚ
  zoneType : ℕ
  initialOffset : Vec3
  lastCarPosition : ℚ
deriving DecidableEq, Repr

/-- Model of the `FlowLinesVisualization` member state
(FlowVisualization.h, lines 683-698; OpenGL handles excluded). -/
structure FlowState where
  flowLines : List FlowLine
  numLines : ℕ
  pointsPerLine : ℕ
  minDistance : ℚ
  adaptiveDensity : Bool
  carLength : ℚ
  carWidth : ℚ
  carHeight : ℚ
  carPosition : ℚ
  prevCarPosition : ℚ
  carSpeed : ℚ
  simulateDRS : Bool
  relativeDynamics : Bool
deriving DecidableEq, Repr

/-- `glm::clamp(x, lo, hi)`. -/
def clampQ (x lo hi : ℚ) : ℚ := max lo (min x hi)

/-- `glm::mix(a, b, t) = a + t * (b - a)`. -/
def mixQ (a b t : ℚ) : ℚ := a + t * (b - a)

/-- `FlowLinesVisualization::calculateFlowColor` (lines 598-635).
The base color is a piecewise function of a clamped velocity factor
(`velocity / 12` shifted by the car-speed influence `carSpeed / 350`),
then scaled by `lifeRatio`.  `pointPosition` is a parameter of the C++
function that its body never reads. -/
def calculateFlowColor (carSpeed : ℚ) (lifeRatio : ℚ) (pointPosition : ℚ)
    (fl : FlowLine) : Vec3 :=
  let velocityFactor := clampQ (fl.velocity / 12) 0 1
  let speedInfluence := carSpeed / 350
  let velocityFactor := mixQ velocityFactor (velocityFactor + 3/10) speedInfluence
  let velocityFactor := clampQ velocityFactor 0 1
  let color : Vec3 :=
    if velocityFactor < 1/4 then
      let t := velocityFactor / (1/4)
      ⟨0, t, 1⟩
    else if velocityFactor < 1/2 then
      let t := (velocityFactor - 1/4) / (1/4)
      ⟨0, 1, 1 - t⟩
    else if velocityFactor < 3/4 then
      let t := (velocityFactor - 1/2) / (1/4)
      ⟨t, 1, 0⟩
    else
      let t := (velocityFactor - 3/4) / (1/4)
      ⟨1, 1 - t, 0⟩
  let _ := pointPosition
  scaleV lifeRatio color

/-- `glm::length v < m`, expressed on the squared norm (equivalent to the
square-root comparison: a real square root is `< m` iff `m` is positive
and the squared norm is `< m²`). -/
def lengthLt (v : Vec3) (m : ℚ) : Bool :=
  decide (0 < m) && decide (norm2 v < m * m)

/-- `FlowLinesVisualization::checkMinimumDistance` (lines 451-458). -/
def checkMinimumDistance (position : Vec3) (existingPositions : List Vec3)
    (minDistance : ℚ) : Bool :=
  existingPositions.all fun existingPos => !(lengthLt (vsub position existingPos) minDistance)

/-- Wake effect (block 1 of `applyAerodynamics`, lines 476-499). -/
def wakeEffect (st : FlowState) (relativePos : Vec3) (carSpeedFactor : ℚ)
    (env : Env) (d : Vec3) : Vec3 :=
  if st.carLength * (3/10) < relativePos.z then
    let wakeStrength := (5/100) * env.exp (-(relativePos.z - st.carLength * (3/10)) / 2)
    let speedMultiplier := 8/10 + carSpeedFactor * (4/10)
    let d :=
      if 0 < relativePos.x then
        { d with x := d.x - wakeStrength * speedMultiplier }
      else
        { d with x := d.x + wakeStrength * speedMultiplier }
    if st.simulateDRS ∧ |relativePos.x| < st.carWidth * (3/10) ∧
        relativePos.z < st.carLength * (6/10) then
      { d with y := d.y + wakeStrength * (3/10) * speedMultiplier }
    else
      { d with y := d.y + wakeStrength * (5/10) * speedMultiplier }
  else d

/-- Ground effect (block 2 of `applyAerodynamics`, lines 501-510). -/
def groundEffect (st : FlowState) (relativePos : Vec3) (carSpeedFactor : ℚ)
    (d : Vec3) : Vec3 :=
  if relativePos.y < st.carHeight * (2/10) ∧
      |relativePos.x| < st.carWidth * (4/10) ∧
      |relativePos.z| < st.carLength * (4/10) then
    let speedEffect := 1 + carSpeedFactor * (5/10)
    { d with z := d.z * ((12/10) * speedEffect), y := d.y * (8/10) }
  else d

/-- Wing-tip vortex effect (block 3 of `applyAerodynamics`, lines 512-537). -/
def vortexEffect (st : FlowState) (relativePos : Vec3) (carSpeedFactor : ℚ)
    (env : Env) (d : Vec3) : Vec3 :=
  let wingTipDistance :=
    min (|relativePos.x - st.carWidth * (4/10)|) (|relativePos.x + st.carWidth * (4/10)|)
  if wingTipDistance < 2/10 ∧ |relativePos.z - st.carLength * (4/10)| < 3/10 then
    let vortexStrength := (8/100) * (1 - wingTipDistance / (2/10)) * carSpeedFactor
    let vortexStrength := if st.simulateDRS then vortexStrength * (6/10) else vortexStrength
    let angle := relativePos.z * 10 + st.carSpeed * (1/100)
    { d with x := d.x + vortexStrength * env.sin angle,
             y := d.y + vortexStrength * env.cos angle }
  else if wingTipDistance < 2/10 ∧ |relativePos.z + st.carLength * (4/10)| < 3/10 then
    let vortexStrength := (8/100) * (1 - wingTipDistance / (2/10)) * carSpeedFactor
    let angle := relativePos.z * 10 + st.carSpeed * (1/100)
    { d with x := d.x + vortexStrength * env.sin angle,
             y := d.y + vortexStrength * env.cos angle }
  else d

/-- Turbulence (block 4 of `applyAerodynamics`, lines 539-543): three
uniform draws in `[-turbulence, turbulence]` added to the three axes. -/
def turbulenceEffect (carSpeedFactor : ℚ) (d : Vec3) (g : Rng) : Vec3 × Rng :=
  let turbulence := (1/100) * (5/10 + carSpeedFactor * (5/10))
  let (tx, g) := generateRandomFloat (-turbulence) turbulence g
  let (ty, g) := generateRandomFloat (-turbulence) turbulence g
  let (tz, g) := generateRandomFloat (-turbulence) turbulence g
  (⟨d.x + tx, d.y + ty, d.z + tz⟩, g)

/-- `FlowLinesVisualization::applyAerodynamics` (lines 461-546).
The base displacement `direction * distanceToAdvance` is multiplied by
`carSpeedFactor` (line 474) and the four effect blocks are applied in
source order. -/
def applyAerodynamics (env : Env) (st : FlowState) (fl : FlowLine)
    (distanceToAdvance : ℚ) (g : Rng) : Vec3 × Rng :=
  let currentHead := fl.points.headD ⟨0, 0, 0⟩
  let baseDirection := fl.direction
  let displacement := scaleV distanceToAdvance baseDirection
  let relativePos : Vec3 := ⟨currentHead.x, currentHead.y, currentHead.z - st.carPosition⟩
  let carSpeedFactor := st.carSpeed / 250
  let displacement := scaleV carSpeedFactor displacement
  let displacement := wakeEffect st relativePos carSpeedFactor env displacement
  let displacement := groundEffect st relativePos carSpeedFactor displacement
  let displacement := vortexEffect st relativePos carSpeedFactor env displacement
  turbulenceEffect carSpeedFactor displacement g

/-- `FlowLinesVisualization::resetFlowLine` (lines 549-595). -/
def resetFlowLine (env : Env) (st : FlowState) (fl : FlowLine) (g : Rng) :
    FlowLine × Rng :=
  let (vx, g) := generateRandomFloat (-(1/10)) (1/10) g
  let (vy, g) := generateRandomFloat (-(1/10)) (1/10) g
  let (vz, g) := generateRandomFloat (-(1/10)) (1/10) g
  let newPos : Vec3 :=
    ⟨fl.initialOffset.x + vx, fl.initialOffset.y + vy,
      fl.initialOffset.z + vz + st.carPosition⟩
  let lastCarPosition := st.carPosition
  let speedFactor := st.carSpeed / 250
  let variationScale := 5/100 + (5/100) * speedFactor
  let (dx, g) := generateRandomFloat (-variationScale) variationScale g
  let (dy, g) := generateRandomFloat (-variationScale) variationScale g
  let (dz, g) := generateRandomFloat (-variationScale) variationScale g
  let direction := env.normalize
    ⟨fl.direction.x + dx, fl.direction.y + dy, fl.direction.z + dz⟩
  let (lifeMul, g) := generateRandomFloat (8/10) (12/10) g
  let life := fl.initialLife * lifeMul
  let life := life * (11/10 - speedFactor * (2/10))
  let (speedVariation, g) := generateRandomFloat (9/10) (11/10) g
  let speed := fl.velocity * speedFactor * speedVariation
  let fl' : FlowLine :=
    { fl with
      points := [newPos]
      colors := []
      life := life
      speed := speed
      initialPosition := newPos
      direction := direction
      lastCarPosition := lastCarPosition }
  ({ fl' with colors := [calculateFlowColor st.carSpeed 1 0 fl'] }, g)

/-- Shift a trail point along the travel axis by the relative car-movement
delta (body of the loop at lines 81-83: `point.z += relativeDelta`). -/
def shiftZ (delta : ℚ) (p : Vec3) : Vec3 := ⟨p.x, p.y, p.z + delta⟩

/-- Relative-dynamics block of `update` (lines 74-84): when the toggle is
enabled, the per-entity delta `m_carPosition - lastCarPosition` is added
to the travel axis of every existing point and `lastCarPosition` is
refreshed; when disabled nothing happens. -/
def reseat (st : FlowState) (fl : FlowLine) : FlowLine :=
  if st.relativeDynamics then
    let relativeDelta := st.carPosition - fl.lastCarPosition
    { fl with
      lastCarPosition := st.carPosition
      points := fl.points.map (shiftZ relativeDelta) }
  else fl

/-- Head-advance block of `update` (lines 86-106): when the trail is
nonempty, drop the tail at `maxPoints`, compute the displaced new head
via `applyAerodynamics` and prepend it together with its color. -/
def advanceHead (env : Env) (st : FlowState) (fl : FlowLine)
    (distanceToAdvance : ℚ) (g : Rng) : FlowLine × Rng :=
  if fl.points.length ≠ 0 then
    let fl :=
      if fl.maxPoints ≤ fl.points.length then
        { fl with points := fl.points.dropLast, colors := fl.colors.dropLast }
      else fl
    let (displacement, g) := applyAerodynamics env st fl distanceToAdvance g
    let newHeadPos := vadd (fl.points.headD ⟨0, 0, 0⟩) displacement
    let fl := { fl with points := newHeadPos :: fl.points }
    let lifeRatio := fl.life / fl.initialLife
    let color := calculateFlowColor st.carSpeed lifeRatio 0 fl
    ({ fl with colors := color :: fl.colors }, g)
  else (fl, g)

/-- Per-line body of `FlowLinesVisualization::update` (lines 62-106):
life decay, conditional reset, relative-dynamics reseat of existing
points, then the head advance. -/
def updateFlowLine (env : Env) (st : FlowState) (deltaTime : ℚ)
    (fl : FlowLine) (g : Rng) : FlowLine × Rng :=
  let fl := { fl with life := fl.life - deltaTime }
  let (fl, g) := if fl.life ≤ 0 then resetFlowLine env st fl g else (fl, g)
  let distanceToAdvance := fl.speed * deltaTime
  let fl := reseat st fl
  advanceHead env st fl distanceToAdvance g

/-- Sequential pass over the flow lines threading the shared generator. -/
def updateLines (env : Env) (st : FlowState) (deltaTime : ℚ) :
    List FlowLine → Rng → List FlowLine × Rng
  | [], g => ([], g)
  | fl :: rest, g =>
    let (fl', g) := updateFlowLine env st deltaTime fl g
    let (rest', g) := updateLines env st deltaTime rest g
    (fl' :: rest', g)

/-- `FlowLinesVisualization::update` (lines 52-117).  The car-movement
delta of line 55 is computed into a local the loop body never reads;
`m_prevCarPosition` is refreshed, each line is updated in order, and the
collected vertex/color buffers are handed to the (excluded) GL upload. -/
def update (env : Env) (st : FlowState) (deltaTime : ℚ) (g : Rng) :
    FlowState × Rng :=
  let st' := { st with prevCarPosition := st.carPosition }
  let (lines, g) := updateLines env st' deltaTime st'.flowLines g
  ({ st' with flowLines := lines }, g)

/-- `setAdaptiveDensity` (lines 157-159). -/
def setAdaptiveDensity (st : FlowState) (enable : Bool) : FlowState :=
  { st with adaptiveDensity := enable }

/-- `setDensity` (lines 162-164): stores the argument verbatim. -/
def setDensity (st : FlowState) (minDistance : ℚ) : FlowState :=
  { st with minDistance := minDistance }

/-- `setCarPosition` (lines 167-169). -/
def setCarPosition (st : FlowState) (position : ℚ) : FlowState :=
  { st with carPosition := position }

/-- `setCarSpeed` (lines 172-174): stores the argument verbatim. -/
def setCarSpeed (st : FlowState) (speed : ℚ) : FlowState :=
  { st with carSpeed := speed }

/-- `setDRS` (lines 177-179). -/
def setDRS (st : FlowState) (isOpen : Bool) : FlowState :=
  { st with simulateDRS := isOpen }

/-- `setRelativeDynamics` (lines 182-184). -/
def setRelativeDynamics (st : FlowState) (enable : Bool) : FlowState :=
  { st with relativeDynamics := enable }

/-- Zone allocation (lines 225-229): `int n = m_numLines * w` truncates
the product toward zero. -/
def zoneAlloc (numLines : ℕ) (w : ℚ) : ℕ := (⌊(numLines : ℚ) * w⌋).toNat

/-- Running state of `initFlowLines`: the lines pushed so far, the shared
`existingPositions` set, and the generator. -/
structure InitAcc where
  flowLines : List FlowLine
  existing : List Vec3
  g : Rng

/-- One zone's `for (i; i < count && lineCount < numLines; i++)` loop
(lines 235, 278, 318, 358, 410): each slot runs its attempt; on success
the line and its accepted position are appended, otherwise nothing is.
`attempt` receives the slot index `i` (the side zone alternates on it). -/
def zoneLoop (numLines : ℕ)
    (attempt : ℕ → List Vec3 → Rng → Option FlowLine × Rng) :
    ℕ → ℕ → InitAcc → InitAcc
  | 0, _, acc => acc
  | n + 1, i, acc =>
    if acc.flowLines.length < numLines then
      match attempt i acc.existing acc.g with
      | (some fl, g) =>
        zoneLoop numLines attempt n (i + 1)
          ⟨acc.flowLines ++ [fl], acc.existing ++ [fl.initialPosition], g⟩
      | (none, g) =>
        zoneLoop numLines attempt n (i + 1) ⟨acc.flowLines, acc.existing, g⟩
    else acc

/-- Front-wing attempt loop (lines 243-274): up to 10 random candidates,
spacing checked against `m_minDistance * 0.8f`; the first passing
candidate builds the line, and exhaustion yields no line. -/
def frontWingAttempt (env : Env) (st : FlowState) (existing : List Vec3) :
    ℕ → Rng → Option FlowLine × Rng
  | 0, g => (none, g)
  | n + 1, g =>
    let frontWingZ := -st.carLength * (5/10)
    let frontWingWidth := st.carWidth * (12/10)
    let frontWingHeight := st.carHeight * (3/10)
    let (px, g) := generateRandomFloat (-frontWingWidth / 2) (frontWingWidth / 2) g
    let (py, g) := generateRandomFloat (5/100) frontWingHeight g
    let (pz, g) := generateRandomFloat 0 (2/10) g
    let initialOffset : Vec3 := ⟨px, py, frontWingZ - pz⟩
    let position : Vec3 := ⟨initialOffset.x, initialOffset.y, initialOffset.z + st.carPosition⟩
    if checkMinimumDistance position existing (st.minDistance * (8/10)) then
      let (pressure, g) := generateRandomFloat (7/10) 1 g
      let (velocity, g) := generateRandomFloat 5 8 g
      let (initialLife, g) := generateRandomFloat 3 5 g
      let fl : FlowLine :=
        { points := [position]
          colors := []
          life := initialLife
          initialLife := initialLife
          speed := velocity * (st.carSpeed / 250)
          initialPosition := position
          direction := env.normalize ⟨0, 0, 1⟩
          maxPoints := st.pointsPerLine
          pressure := pressure
          velocity := velocity
          zoneType := 0
          initialOffset := initialOffset
          lastCarPosition := st.carPosition }
      (some { fl with colors := [calculateFlowColor st.carSpeed 1 0 fl] }, g)
    else frontWingAttempt env st existing n g

/-- Top-zone attempt loop (lines 285-314). -/
def topAttempt (env : Env) (st : FlowState) (existing : List Vec3) :
    ℕ → Rng → Option FlowLine × Rng
  | 0, g => (none, g)
  | n + 1, g =>
    let topZ : ℚ := 0
    let topWidth := st.carWidth * (5/10)
    let topHeight := st.carHeight
    let (px, g) := generateRandomFloat (-topWidth / 2) (topWidth / 2) g
    let (py, g) := generateRandomFloat 0 (2/10) g
    let (pz, g) := generateRandomFloat (-st.carLength * (3/10)) (st.carLength * (3/10)) g
    let initialOffset : Vec3 := ⟨px, topHeight + py, topZ + pz⟩
    let position : Vec3 := ⟨initialOffset.x, initialOffset.y, initialOffset.z + st.carPosition⟩
    if checkMinimumDistance position existing st.minDistance then
      let (pressure, g) := generateRandomFloat (3/10) (6/10) g
      let (velocity, g) := generateRandomFloat 7 10 g
      let (initialLife, g) := generateRandomFloat 3 5 g
      let fl : FlowLine :=
        { points := [position]
          colors := []
          life := initialLife
          initialLife := initialLife
          speed := velocity * (st.carSpeed / 250)
          initialPosition := position
          direction := env.normalize ⟨0, 0, 1⟩
          maxPoints := st.pointsPerLine
          pressure := pressure
          velocity := velocity
          zoneType := 1
          initialOffset := initialOffset
          lastCarPosition := st.carPosition }
      (some { fl with colors := [calculateFlowColor st.carSpeed 1 0 fl] }, g)
    else topAttempt env st existing n g

/-- Side-zone attempt loop (lines 325-353): the lateral side alternates
with the slot index `i` and is not drawn from the generator. -/
def sideAttempt (env : Env) (st : FlowState) (i : ℕ) (existing : List Vec3) :
    ℕ → Rng → Option FlowLine × Rng
  | 0, g => (none, g)
  | n + 1, g =>
    let sideZ : ℚ := 0
    let sideWidth := st.carWidth * (5/10)
    let sideHeight := st.carHeight * (5/10)
    let px := if i % 2 = 0 then sideWidth / 2 else -sideWidth / 2
    let (py, g) := generateRandomFloat (2/10) sideHeight g
    let (pz, g) := generateRandomFloat (-st.carLength * (2/10)) (st.carLength * (2/10)) g
    let initialOffset : Vec3 := ⟨px, py, sideZ + pz⟩
    let position : Vec3 := ⟨initialOffset.x, initialOffset.y, initialOffset.z + st.carPosition⟩
    if checkMinimumDistance position existing st.minDistance then
      let (pressure, g) := generateRandomFloat (4/10) (7/10) g
      let (velocity, g) := generateRandomFloat 6 9 g
      let (initialLife, g) := generateRandomFloat 3 5 g
      let fl : FlowLine :=
        { points := [position]
          colors := []
          life := initialLife
          initialLife := initialLife
          speed := velocity * (st.carSpeed / 250)
          initialPosition := position
          direction := env.normalize ⟨if i % 2 = 0 then 2/10 else -(2/10), 0, 1⟩
          maxPoints := st.pointsPerLine
          pressure := pressure
          velocity := velocity
          zoneType := 2
          initialOffset := initialOffset
          lastCarPosition := st.carPosition }
      (some { fl with colors := [calculateFlowColor st.carSpeed 1 0 fl] }, g)
    else sideAttempt env st i existing n g

/-- Rear-wing attempt loop (lines 365-406): the longitudinal coordinate
is fixed at the wing plane; direction, pressure and velocity depend on
the DRS state. -/
def rearWingAttempt (env : Env) (st : FlowState) (existing : List Vec3) :
    ℕ → Rng → Option FlowLine × Rng
  | 0, g => (none, g)
  | n + 1, g =>
    let rearWingZ := st.carLength * (4/10)
    let rearWingWidth := st.carWidth * (9/10)
    let rearWingHeight := st.carHeight * (9/10)
    let (px, g) := generateRandomFloat (-rearWingWidth / 2) (rearWingWidth / 2) g
    let (py, g) := generateRandomFloat (rearWingHeight * (5/10)) rearWingHeight g
    let initialOffset : Vec3 := ⟨px, py, rearWingZ⟩
    let position : Vec3 := ⟨initialOffset.x, initialOffset.y, initialOffset.z + st.carPosition⟩
    if checkMinimumDistance position existing st.minDistance then
      let (direction, pressure, velocity, g) :=
        if st.simulateDRS then
          let (pressure, g) := generateRandomFloat (1/10) (3/10) g
          let (velocity, g) := generateRandomFloat 5 8 g
          (env.normalize ⟨0, 5/100, 1⟩, pressure, velocity, g)
        else
          let (pressure, g) := generateRandomFloat (1/10) (4/10) g
          let (velocity, g) := generateRandomFloat 4 6 g
          (env.normalize ⟨0, 1/10, 1⟩, pressure, velocity, g)
      let (initialLife, g) := generateRandomFloat 3 5 g
      let fl : FlowLine :=
        { points := [position]
          colors := []
          life := initialLife
          initialLife := initialLife
          speed := velocity * (st.carSpeed / 250)
          initialPosition := position
          direction := direction
          maxPoints := st.pointsPerLine
          pressure := pressure
          velocity := velocity
          zoneType := 3
          initialOffset := initialOffset
          lastCarPosition := st.carPosition }
      (some { fl with colors := [calculateFlowColor st.carSpeed 1 0 fl] }, g)
    else rearWingAttempt env st existing n g

/-- Floor-zone attempt loop (lines 417-445): spacing checked against
`m_minDistance * 0.7f`, the height is the fixed floor plane. -/
def floorAttempt (env : Env) (st : FlowState) (existing : List Vec3) :
    ℕ → Rng → Option FlowLine × Rng
  | 0, g => (none, g)
  | n + 1, g =>
    let floorZ : ℚ := 0
    let floorWidth := st.carWidth * (8/10)
    let floorHeight : ℚ := 5/100
    let (px, g) := generateRandomFloat (-floorWidth / 2) (floorWidth / 2) g
    let (pz, g) := generateRandomFloat (-st.carLength * (3/10)) (st.carLength * (3/10)) g
    let initialOffset : Vec3 := ⟨px, floorHeight, floorZ + pz⟩
    let position : Vec3 := ⟨initialOffset.x, initialOffset.y, initialOffset.z + st.carPosition⟩
    if checkMinimumDistance position existing (st.minDistance * (7/10)) then
      let (pressure, g) := generateRandomFloat (1/10) (3/10) g
      let (velocity, g) := generateRandomFloat 8 12 g
      let (initialLife, g) := generateRandomFloat 3 5 g
      let fl : FlowLine :=
        { points := [position]
          colors := []
          life := initialLife
          initialLife := initialLife
          speed := velocity * (st.carSpeed / 250)
          initialPosition := position
          direction := env.normalize ⟨0, -(5/100), 1⟩
          maxPoints := st.pointsPerLine
          pressure := pressure
          velocity := velocity
          zoneType := 4
          initialOffset := initialOffset
          lastCarPosition := st.carPosition }
      (some { fl with colors := [calculateFlowColor st.carSpeed 1 0 fl] }, g)
    else floorAttempt env st existing n g

/-- `FlowLinesVisualization::initFlowLines` (lines 195-448): clears the
collection, allocates the per-zone slot counts and runs the five zone
loops in source order over the shared `existingPositions` set. -/
def initFlowLines (env : Env) (st : FlowState) (g : Rng) : FlowState × Rng :=
  let frontWingLines := zoneAlloc st.numLines (3/10)
  let topLines := zoneAlloc st.numLines (2/10)
  let sideLines := zoneAlloc st.numLines (15/100)
  let rearWingLines := zoneAlloc st.numLines (15/100)
  let floorLines := zoneAlloc st.numLines (2/10)
  let acc : InitAcc := ⟨[], [], g⟩
  let acc := zoneLoop st.numLines
    (fun _ ex g => frontWingAttempt env st ex 10 g) frontWingLines 0 acc
  let acc := zoneLoop st.numLines
    (fun _ ex g => topAttempt env st ex 10 g) topLines 0 acc
  let acc := zoneLoop st.numLines
    (fun i ex g => sideAttempt env st i ex 10 g) sideLines 0 acc
  let acc := zoneLoop st.numLines
    (fun _ ex g => rearWingAttempt env st ex 10 g) rearWingLines 0 acc
  let acc := zoneLoop st.numLines
    (fun _ ex g => floorAttempt env st ex 10 g) floorLines 0 acc
  ({ st with flowLines := acc.flowLines }, acc.g)

/-- Constructor member initialization (lines 31-50); `setupBuffers` is a
GL-side effect outside the model. -/
def mkFlowState (numLines : ℕ) (carLength carWidth carHeight : ℚ) : FlowState :=
  { flowLines := []
    numLines := numLines
    pointsPerLine := 50
    minDistance := 1/4
    adaptiveDensity := true
    carLength := carLength
    carWidth := carWidth
    carHeight := carHeight
    carPosition := 0
    prevCarPosition := 0
    carSpeed := 250
    simulateDRS := false
    relativeDynamics := true }

/-- The full `FlowLinesVisualization` constructor: member initialization
followed by `initFlowLines`. -/
def construct (env : Env) (numLines : ℕ) (carLength carWidth carHeight : ℚ)
    (g : Rng) : FlowState × Rng :=
  initFlowLines env (mkFlowState numLines carLength carWidth carHeight) g

/-- Linear interpolation between two colors with local fraction `t`
(used to state the piecewise-linear shape of `calculateFlowColor`). -/
def lerpColor (a b : Vec3) (t : ℚ) : Vec3 := vadd a (scaleV t (vsub b a))

/-- Concrete environment for evaluating the model at concrete inputs:
the abstract float primitives are instantiated with simple total maps
(no verified property depends on their values). -/
def sampleEnv : Env := ⟨fun _ => 0, fun _ => 0, fun _ => 0, id⟩

/-- Sample stream that always draws the midpoint of the requested range. -/
def halfRng : Rng := fun _ => 1/2

/-- Sample stream that always draws the top of the requested range. -/
def oneRng : Rng := fun _ => 1

/-- Sample stream that always draws the bottom of the requested range. -/
def zeroRng : Rng := fun _ => 0

/-- Sample stream whose seventh draw (the life multiplier of
`resetFlowLine`) is the top of the range and all others the midpoint. -/
def resetRng : Rng := fun n => if n = 6 then 1 else 1/2

/-- A concrete simulation state: constructor defaults with a stationary
car (`carSpeed = 0`). -/
def sampleState : FlowState :=
  { flowLines := []
    numLines := 1
    pointsPerLine := 50
    minDistance := 1/4
    adaptiveDensity := true
    carLength := 57/10
    carWidth := 2
    carHeight := 1
    carPosition := 0
    prevCarPosition := 0
    carSpeed := 0
    simulateDRS := false
    relativeDynamics := true }

/-- A concrete front-wing flow line whose life expires on the next tick. -/
def dyingLine : FlowLine :=
  { points := [⟨0, 0, 0⟩]
    colors := [⟨0, 0, 1⟩]
    life := 1/100
    initialLife := 1
    speed := 0
    initialPosition := ⟨0, 0, 0⟩
    direction := ⟨0, 0, 1⟩
    maxPoints := 50
    pressure := 1/2
    velocity := 0
    zoneType := 0
    initialOffset := ⟨0, 0, 0⟩
    lastCarPosition := 0 }

/-- The sample state at 500 km/h (car-speed factor 2). -/
def outOfZoneState : FlowState := { sampleState with carSpeed := 500 }

/-- A live flow line whose head sits far above every aerodynamic effect
zone, with `speed` as `resetFlowLine` assigns it at factor 2. -/
def outOfZoneLine : FlowLine :=
  { dyingLine with points := [⟨0, 10, 0⟩], velocity := 1, speed := 2, life := 5 }

/-- The sample state after the car advanced from position 1 to 3. -/
def movedState : FlowState :=
  { sampleState with carPosition := 3, prevCarPosition := 1 }

/-- A live flow line whose `lastCarPosition` matches `movedState`'s
previous car position. -/
def trackedLine : FlowLine := { dyingLine with life := 5, lastCarPosition := 1 }

/-- The sample state with relative dynamics disabled while the car moved
to position 2. -/
def toggleOffState : FlowState :=
  { sampleState with relativeDynamics := false, carPosition := 2, prevCarPosition := 0 }

/-- The sample state with relative dynamics re-enabled after the car
reached position 5. -/
def toggleOnState : FlowState :=
  { sampleState with relativeDynamics := true, carPosition := 5, prevCarPosition := 2 }

/-- A long-lived flow line created while the car was at position 0. -/
def longLine : FlowLine := { dyingLine with life := 10, lastCarPosition := 0 }

/-- A slow flow line with pressure 1/2. -/
def pressureLineA : FlowLine := { dyingLine with velocity := 0, pressure := 1/2 }

/-- A fast flow line with the same pressure 1/2. -/
def pressureLineB : FlowLine := { dyingLine with velocity := 12, pressure := 1/2 }

/-!  Helper lemmas about the phases of `update`. -/

theorem reseat_life (st : FlowState) (fl : FlowLine) : (reseat st fl).life = fl.life := by
  unfold reseat; split <;> rfl

theorem reseat_maxPoints (st : FlowState) (fl : FlowLine) :
    (reseat st fl).maxPoints = fl.maxPoints := by
  unfold reseat; split <;> rfl

theorem reseat_length (st : FlowState) (fl : FlowLine) :
    (reseat st fl).points.length = fl.points.length := by
  unfold reseat; split
  · simp
  · rfl

theorem advanceHead_life (env : Env) (st : FlowState) (fl : FlowLine) (d : ℚ) (g : Rng) :
    (advanceHead env st fl d g).1.life = fl.life := by
  unfold advanceHead
  split
  · split <;> rfl
  · rfl

theorem advanceHead_lastCarPosition (env : Env) (st : FlowState) (fl : FlowLine)
    (d : ℚ) (g : Rng) :
    (advanceHead env st fl d g).1.lastCarPosition = fl.lastCarPosition := by
  unfold advanceHead
  split
  · split <;> rfl
  · rfl

theorem advanceHead_maxPoints (env : Env) (st : FlowState) (fl : FlowLine)
    (d : ℚ) (g : Rng) :
    (advanceHead env st fl d g).1.maxPoints = fl.maxPoints := by
  unfold advanceHead
  split
  · split <;> rfl
  · rfl

theorem advanceHead_tail (env : Env) (st : FlowState) (fl : FlowLine) (d : ℚ) (g : Rng) :
    (advanceHead env st fl d g).1.points.tail =
      if fl.maxPoints ≤ fl.points.length then fl.points.dropLast else fl.points := by
  unfold advanceHead
  split
  · split
    · rfl
    · rfl
  · rename_i h
    have hnil : fl.points = [] := List.length_eq_zero.mp (not_not.mp (by simpa using h))
    simp [hnil]

theorem advanceHead_length_le (env : Env) (st : FlowState) (fl : FlowLine) (d : ℚ) (g : Rng)
    (hmax : 1 ≤ fl.maxPoints) (hlen : fl.points.length ≤ fl.maxPoints) :
    (advanceHead env st fl d g).1.points.length ≤ fl.maxPoints := by
  unfold advanceHead
  split
  · split
    · rename_i hne hle
      simp only [List.length_cons, List.length_dropLast]
      omega
    · rename_i hne hlt
      simp only [List.length_cons]
      omega
  · rename_i h
    simpa using hlen

theorem advanceHead_length_two (env : Env) (st : FlowState) (fl : FlowLine) (d : ℚ) (g : Rng)
    (hone : fl.points.length = 1) (hmax : 2 ≤ fl.maxPoints) :
    (advanceHead env st fl d g).1.points.length = 2 := by
  unfold advanceHead
  rw [if_pos (by omega : fl.points.length ≠ 0),
    if_neg (by omega : ¬ fl.maxPoints ≤ fl.points.length)]
  simp only [List.length_cons]
  omega

theorem resetFlowLine_life_eq (env : Env) (st : FlowState) (fl : FlowLine) (g : Rng) :
    (resetFlowLine env st fl g).1.life =
      fl.initialLife * (8/10 + g 6 * (12/10 - 8/10)) *
        (11/10 - st.carSpeed / 250 * (2/10)) := rfl

theorem resetFlowLine_length (env : Env) (st : FlowState) (fl : FlowLine) (g : Rng) :
    (resetFlowLine env st fl g).1.points.length = 1 := rfl

theorem resetFlowLine_maxPoints (env : Env) (st : FlowState) (fl : FlowLine) (g : Rng) :
    (resetFlowLine env st fl g).1.maxPoints = fl.maxPoints := rfl

theorem updateFlowLine_of_alive (env : Env) (st : FlowState) (dt : ℚ) (fl : FlowLine)
    (g : Rng) (h : ¬ fl.life - dt ≤ 0) :
    updateFlowLine env st dt fl g =
      advanceHead env st (reseat st { fl with life := fl.life - dt }) (fl.speed * dt) g := by
  simp only [updateFlowLine, if_neg h]

theorem updateFlowLine_of_dead (env : Env) (st : FlowState) (dt : ℚ) (fl : FlowLine)
    (g : Rng) (h : fl.life - dt ≤ 0) :
    updateFlowLine env st dt fl g =
      advanceHead env st
        (reseat st (resetFlowLine env st { fl with life := fl.life - dt } g).1)
        ((resetFlowLine env st { fl with life := fl.life - dt } g).1.speed * dt)
        (resetFlowLine env st { fl with life := fl.life - dt } g).2 := by
  simp only [updateFlowLine, if_pos h]

theorem updateFlowLine_life_alive (env : Env) (st : FlowState) (dt : ℚ) (fl : FlowLine)
    (g : Rng) (h : ¬ fl.life - dt ≤ 0) :
    (updateFlowLine env st dt fl g).1.life = fl.life - dt := by
  rw [updateFlowLine_of_alive env st dt fl g h, advanceHead_life, reseat_life]

theorem updateFlowLine_maxPoints (env : Env) (st : FlowState) (dt : ℚ) (fl : FlowLine)
    (g : Rng) : (updateFlowLine env st dt fl g).1.maxPoints = fl.maxPoints := by
  rcases le_or_lt (fl.life - dt) 0 with h | h
  · rw [updateFlowLine_of_dead env st dt fl g h, advanceHead_maxPoints, reseat_maxPoints]
    rfl
  · rw [updateFlowLine_of_alive env st dt fl g (not_le.mpr h), advanceHead_maxPoints,
      reseat_maxPoints]

theorem zoneLoop_length_le (m : ℕ)
    (attempt : ℕ → List Vec3 → Rng → Option FlowLine × Rng) :
    ∀ (n i : ℕ) (acc : InitAcc),
      (zoneLoop m attempt n i acc).flowLines.length ≤ acc.flowLines.length + n := by
  intro n
  induction n with
  | zero => intro i acc; simp [zoneLoop]
  | succ k ih =>
    intro i acc
    unfold zoneLoop
    split
    · rcases hres : attempt i acc.existing acc.g with ⟨res, g2⟩
      rcases res with _ | fl
      · simp only [hres]
        have h := ih (i + 1) ⟨acc.flowLines, acc.existing, g2⟩
        simp only at h
        omega
      · simp only [hres]
        have h := ih (i + 1) ⟨acc.flowLines ++ [fl], acc.existing ++ [fl.initialPosition], g2⟩
        simp only [List.length_append, List.length_cons, List.length_nil] at h
        omega
    · omega

theorem mul_mem01 {a b : ℚ} (ha0 : 0 ≤ a) (ha1 : a ≤ 1) (hb0 : 0 ≤ b) (hb1 : b ≤ 1) :
    0 ≤ a * b ∧ a * b ≤ 1 :=
  ⟨mul_nonneg ha0 hb0, mul_le_one₀ ha1 hb0 hb1⟩

theorem clampQ01_nonneg (x : ℚ) : 0 ≤ clampQ x 0 1 := le_max_left 0 _

theorem clampQ01_le_one (x : ℚ) : clampQ x 0 1 ≤ 1 :=
  max_le (by norm_num) (min_le_right x 1)

/-!  Claim theorems.  Concrete evaluations below go through the kernel;
the rational arithmetic primitives are restored to their default
reducibility for that purpose. -/

attribute [local semireducible] Rat.add Rat.sub Rat.mul Rat.inv

/-- C1 counterexample: a flow line whose life expires during `update`
does not end the tick with a single trail point — the post-reset trail
has length 2, because the same tick's head advance still prepends a new
head after the reset. -/
theorem C1_trail_not_singleton :
    dyingLine.life - 1/50 ≤ 0 ∧
    (updateFlowLine sampleEnv sampleState (1/50) dyingLine resetRng).1.points.length ≠ 1 := by
  decide

/-- C1 (amended): after a tick in which a flow line's life reached ≤ 0,
the line has a fresh positive life and its trail has length exactly 2:
the reset leaves the single respawn point and the same tick's advance
prepends one new head (for positive `initialLife`, a nonnegative life
sample, car speed below 1375 km/h and `maxPoints ≥ 2`). -/
theorem C1_reset_tick (env : Env) (st : FlowState) (dt : ℚ) (fl : FlowLine) (g : Rng)
    (hdead : fl.life - dt ≤ 0)
    (hil : 0 < fl.initialLife)
    (hu : 0 ≤ g 6)
    (hcs : st.carSpeed < 1375)
    (hmax : 2 ≤ fl.maxPoints) :
    0 < (updateFlowLine env st dt fl g).1.life ∧
    (updateFlowLine env st dt fl g).1.points.length = 2 := by
  rw [updateFlowLine_of_dead env st dt fl g hdead]
  constructor
  · rw [advanceHead_life, reseat_life, resetFlowLine_life_eq]
    have h1 : (0:ℚ) < 8/10 + g 6 * (12/10 - 8/10) := by nlinarith
    have h2 : (0:ℚ) < 11/10 - st.carSpeed / 250 * (2/10) := by nlinarith
    have hil' : (0:ℚ) < ({ fl with life := fl.life - dt } : FlowLine).initialLife := hil
    exact mul_pos (mul_pos hil' h1) h2
  · apply advanceHead_length_two
    · rw [reseat_length, resetFlowLine_length]
    · rw [reseat_maxPoints, resetFlowLine_maxPoints]
      exact hmax

/-- C1 witness: the amended statement evaluated on the dying sample line. -/
theorem C1_reset_tick_witness :
    0 < (updateFlowLine sampleEnv sampleState (1/50) dyingLine resetRng).1.life ∧
    (updateFlowLine sampleEnv sampleState (1/50) dyingLine resetRng).1.points.length = 2 :=
  C1_reset_tick sampleEnv sampleState (1/50) dyingLine resetRng (by decide) (by decide)
    (by decide) (by decide) (by decide)

/-- C2 counterexample: at car speed 0, a reset whose life sample is the
top of the `[0.8, 1.2]` range assigns `life = 1.32 × initialLife`, so the
claimed invariant `life ≤ initialLife` fails right after the reset. -/
theorem C2_life_exceeds_initialLife :
    (resetFlowLine sampleEnv sampleState dyingLine oneRng).1.initialLife ≤ 1 ∧
    1 < (resetFlowLine sampleEnv sampleState dyingLine oneRng).1.life := by
  decide

/-- C2 (amended): `update` preserves `trail.length ≤ maxPoints` (for
`maxPoints ≥ 1`), and the life assigned by `resetFlowLine` is nonnegative
and bounded by `1.32 × initialLife` (for unit samples and car speed in
`[0, 1375]`) — but it is not bounded by `initialLife` itself. -/
theorem C2_invariants (env : Env) (st : FlowState) (dt : ℚ) (fl : FlowLine) (g : Rng)
    (hmax : 1 ≤ fl.maxPoints) :
    (fl.points.length ≤ fl.maxPoints →
      (updateFlowLine env st dt fl g).1.points.length ≤
        (updateFlowLine env st dt fl g).1.maxPoints) ∧
    (0 ≤ fl.initialLife → 0 ≤ g 6 → g 6 ≤ 1 → 0 ≤ st.carSpeed → st.carSpeed ≤ 1375 →
      0 ≤ (resetFlowLine env st fl g).1.life ∧
      (resetFlowLine env st fl g).1.life ≤ (33/25) * fl.initialLife) := by
  constructor
  · intro hlen
    rw [updateFlowLine_maxPoints]
    rcases le_or_lt (fl.life - dt) 0 with h | h
    · rw [updateFlowLine_of_dead env st dt fl g h]
      have h1 := reseat_length st (resetFlowLine env st { fl with life := fl.life - dt } g).1
      rw [resetFlowLine_length] at h1
      have h2 := reseat_maxPoints st (resetFlowLine env st { fl with life := fl.life - dt } g).1
      rw [resetFlowLine_maxPoints] at h2
      have h3 := advanceHead_length_le env st
        (reseat st (resetFlowLine env st { fl with life := fl.life - dt } g).1)
        ((resetFlowLine env st { fl with life := fl.life - dt } g).1.speed * dt)
        (resetFlowLine env st { fl with life := fl.life - dt } g).2
        (by rw [h2]; exact hmax) (by rw [h1, h2]; exact hmax)
      rw [h2] at h3
      exact h3
    · rw [updateFlowLine_of_alive env st dt fl g (not_le.mpr h)]
      have h1 := reseat_length st ({ fl with life := fl.life - dt } : FlowLine)
      have h2 := reseat_maxPoints st ({ fl with life := fl.life - dt } : FlowLine)
      have h3 := advanceHead_length_le env st (reseat st { fl with life := fl.life - dt })
        (fl.speed * dt) g (by rw [h2]; exact hmax) (by rw [h1, h2]; exact hlen)
      rw [h2] at h3
      exact h3
  · intro h0 hu0 hu1 hs0 hs1
    rw [resetFlowLine_life_eq]
    have hA : (0:ℚ) ≤ 8/10 + g 6 * (12/10 - 8/10) := by nlinarith
    have hB : 8/10 + g 6 * (12/10 - 8/10) ≤ (12/10 : ℚ) := by nlinarith
    have hC : (0:ℚ) ≤ 11/10 - st.carSpeed / 250 * (2/10) := by nlinarith
    have hD : 11/10 - st.carSpeed / 250 * (2/10) ≤ (11/10 : ℚ) := by nlinarith
    constructor
    · exact mul_nonneg (mul_nonneg h0 hA) hC
    · nlinarith [mul_nonneg h0 hA, mul_nonneg h0 hC]

/-- C2 witness: the amended statement evaluated on the dying sample line. -/
theorem C2_invariants_witness :
    ((updateFlowLine sampleEnv sampleState (1/50) dyingLine resetRng).1.points.length ≤
      (updateFlowLine sampleEnv sampleState (1/50) dyingLine resetRng).1.maxPoints) ∧
    (0 ≤ (resetFlowLine sampleEnv sampleState dyingLine resetRng).1.life ∧
      (resetFlowLine sampleEnv sampleState dyingLine resetRng).1.life ≤
        (33/25) * dyingLine.initialLife) :=
  ⟨(C2_invariants sampleEnv sampleState (1/50) dyingLine resetRng (by decide)).1 (by decide),
   (C2_invariants sampleEnv sampleState (1/50) dyingLine resetRng (by decide)).2
     (by decide) (by decide) (by decide) (by decide) (by decide)⟩

/-- C3 counterexample: with 7 requested lines (6 allocated zone slots)
and a sample stream that repeats the midpoint draw, the second front-wing
slot exhausts its 10 attempts against the first accepted position and the
entity is dropped — the constructed collection holds 5 lines, not one per
requested slot. -/
theorem C3_entity_dropped :
    (construct sampleEnv 7 (57/10) 2 1 halfRng).1.flowLines.length = 5 ∧
    zoneAlloc 7 (3/10) + zoneAlloc 7 (2/10) + zoneAlloc 7 (15/100) +
      zoneAlloc 7 (15/100) + zoneAlloc 7 (2/10) = 6 := by
  decide

/-- C3 (amended): each requested slot yields at most one placed entity —
when all 10 rejection-sampling attempts fail the entity is dropped, not
placed at its last candidate, so the collection's size is bounded by the
zone allocation total and can fall short of it. -/
theorem C3_placement_bound (env : Env) (st : FlowState) (g : Rng) :
    (initFlowLines env st g).1.flowLines.length ≤
      zoneAlloc st.numLines (3/10) + zoneAlloc st.numLines (2/10) +
      zoneAlloc st.numLines (15/100) + zoneAlloc st.numLines (15/100) +
      zoneAlloc st.numLines (2/10) := by
  unfold initFlowLines
  have h5 := zoneLoop_length_le st.numLines (fun _ ex g => floorAttempt env st ex 10 g)
  have h4 := zoneLoop_length_le st.numLines (fun _ ex g => rearWingAttempt env st ex 10 g)
  have h3 := zoneLoop_length_le st.numLines (fun i ex g => sideAttempt env st i ex 10 g)
  have h2 := zoneLoop_length_le st.numLines (fun _ ex g => topAttempt env st ex 10 g)
  have h1 := zoneLoop_length_le st.numLines (fun _ ex g => frontWingAttempt env st ex 10 g)
  refine le_trans (h5 _ _ _) ?_
  refine le_trans (Nat.add_le_add_right (h4 _ _ _) _) ?_
  refine le_trans (Nat.add_le_add_right (Nat.add_le_add_right (h3 _ _ _) _) _) ?_
  refine le_trans (Nat.add_le_add_right (Nat.add_le_add_right
    (Nat.add_le_add_right (h2 _ _ _) _) _) _) ?_
  refine le_trans (Nat.add_le_add_right (Nat.add_le_add_right (Nat.add_le_add_right
    (Nat.add_le_add_right (h1 _ _ _) _) _) _) _) ?_
  simp only [List.length_nil]
  omega

/-- C4 (confirmed): with relative dynamics enabled, a line that does not
reset and whose `lastCarPosition` matches the previous car position has,
after one `update` tick in which the car moved by `Δ`, exactly `Δ` added
to the z coordinate of every surviving pre-existing trail point (`shiftZ`
leaves x and y unchanged by definition), and its `lastCarPosition` set to
the current car position. -/
theorem C4_relative_transform (env : Env) (st : FlowState) (dt Δ : ℚ) (fl : FlowLine)
    (g : Rng)
    (hrel : st.relativeDynamics = true)
    (halive : ¬ fl.life - dt ≤ 0)
    (hlast : fl.lastCarPosition = st.prevCarPosition)
    (hmove : st.carPosition = st.prevCarPosition + Δ) :
    (updateFlowLine env st dt fl g).1.lastCarPosition = st.carPosition ∧
    (updateFlowLine env st dt fl g).1.points.tail =
      (if fl.maxPoints ≤ fl.points.length then fl.points.dropLast
       else fl.points).map (shiftZ Δ) := by
  have hdelta : st.carPosition - fl.lastCarPosition = Δ := by
    rw [hlast, hmove]; ring
  rw [updateFlowLine_of_alive env st dt fl g halive]
  constructor
  · rw [advanceHead_lastCarPosition]
    simp [reseat, hrel]
  · rw [advanceHead_tail]
    simp only [reseat, hrel, if_true]
    simp only [List.length_map]
    rw [hdelta]
    split_ifs
    · exact (List.map_dropLast _ _).symm
    · rfl

/-- C4 witness: the statement evaluated on a tracked line after the car
moved from position 1 to 3 (`Δ = 2`). -/
theorem C4_relative_transform_witness :
    (updateFlowLine sampleEnv movedState (1/50) trackedLine halfRng).1.lastCarPosition =
      movedState.carPosition ∧
    (updateFlowLine sampleEnv movedState (1/50) trackedLine halfRng).1.points.tail =
      (if trackedLine.maxPoints ≤ trackedLine.points.length then trackedLine.points.dropLast
       else trackedLine.points).map (shiftZ 2) :=
  C4_relative_transform sampleEnv movedState (1/50) 2 trackedLine halfRng rfl (by decide)
    (by decide) (by decide)

/-- C5 counterexample: for a line whose stored `speed` already carries
the factor `carSpeed / 250` (as `resetFlowLine` assigns it), the tick
displacement at a head outside every effect zone and with zero turbulence
draws is not `direction * (velocity * carSpeed/250) * dt` — the factor is
applied a second time inside `applyAerodynamics`. -/
theorem C5_base_advance_not_linear :
    outOfZoneLine.speed = outOfZoneLine.velocity * (outOfZoneState.carSpeed / 250) ∧
    (applyAerodynamics sampleEnv outOfZoneState outOfZoneLine
        (outOfZoneLine.speed * 1) halfRng).1 ≠
      scaleV (outOfZoneLine.velocity * (outOfZoneState.carSpeed / 250) * 1)
        outOfZoneLine.direction := by
  decide

/-- C5 (amended): the base advance is quadratic, not linear, in the
car-speed factor: outside all effect zones and with midpoint turbulence
samples, a line whose `speed` is `velocity * carSpeed/250` is displaced
by `direction * velocity * dt * (carSpeed/250)²` in one tick. -/
theorem C5_base_advance_quadratic (env : Env) (st : FlowState) (fl : FlowLine) (dt : ℚ)
    (g : Rng)
    (hw : ¬ st.carLength * (3/10) < (fl.points.headD ⟨0, 0, 0⟩).z - st.carPosition)
    (hg : ¬ ((fl.points.headD ⟨0, 0, 0⟩).y < st.carHeight * (2/10) ∧
        |(fl.points.headD ⟨0, 0, 0⟩).x| < st.carWidth * (4/10) ∧
        |(fl.points.headD ⟨0, 0, 0⟩).z - st.carPosition| < st.carLength * (4/10)))
    (hv1 : ¬ (min (|(fl.points.headD ⟨0, 0, 0⟩).x - st.carWidth * (4/10)|)
          (|(fl.points.headD ⟨0, 0, 0⟩).x + st.carWidth * (4/10)|) < 2/10 ∧
        |(fl.points.headD ⟨0, 0, 0⟩).z - st.carPosition - st.carLength * (4/10)| < 3/10))
    (hv2 : ¬ (min (|(fl.points.headD ⟨0, 0, 0⟩).x - st.carWidth * (4/10)|)
          (|(fl.points.headD ⟨0, 0, 0⟩).x + st.carWidth * (4/10)|) < 2/10 ∧
        |(fl.points.headD ⟨0, 0, 0⟩).z - st.carPosition + st.carLength * (4/10)| < 3/10))
    (hg0 : g 0 = 1/2) (hg1 : g 1 = 1/2) (hg2 : g 2 = 1/2)
    (hspeed : fl.speed = fl.velocity * (st.carSpeed / 250)) :
    (applyAerodynamics env st fl (fl.speed * dt) g).1 =
      scaleV (fl.velocity * dt * (st.carSpeed / 250) * (st.carSpeed / 250)) fl.direction := by
  unfold applyAerodynamics wakeEffect groundEffect vortexEffect turbulenceEffect
  simp only [generateRandomFloat]
  rw [if_neg hw]
  rw [if_neg hg]
  rw [if_neg hv1]
  rw [if_neg hv2]
  simp only [scaleV, rngTail]
  rw [hg0, hg1, hg2, hspeed]
  simp only [Vec3.mk.injEq]
  refine ⟨by ring, by ring, by ring⟩

/-- C5 witness: the amended statement evaluated at 500 km/h, exhibiting
the squared factor `(500/250)² = 4`. -/
theorem C5_base_advance_quadratic_witness :
    (applyAerodynamics sampleEnv outOfZoneState outOfZoneLine
        (outOfZoneLine.speed * 1) halfRng).1 =
      scaleV (outOfZoneLine.velocity * 1 * (outOfZoneState.carSpeed / 250) *
        (outOfZoneState.carSpeed / 250)) outOfZoneLine.direction :=
  C5_base_advance_quadratic sampleEnv outOfZoneState outOfZoneLine 1 halfRng (by decide)
    (by decide) (by decide) (by decide) rfl rfl rfl (by decide)

/-- C6 counterexample: two flow lines with the same pressure receive
different base colors, so the mapper's base color is not the claimed
piecewise-linear function of pressure — pressure is never read. -/
theorem C6_color_not_pressure_function :
    pressureLineA.pressure = pressureLineB.pressure ∧
    calculateFlowColor 0 1 0 pressureLineA ≠ calculateFlowColor 0 1 0 pressureLineB := by
  decide

/-- C6 (amended): the base color is the piecewise-linear function of the
clamped velocity factor (`velocity / 12` shifted by `0.3 × carSpeed/350`
and re-clamped) with breakpoints 0.25, 0.5, 0.75, interpolating
blue → cyan → green → yellow → red by the local fraction, scaled by the
life ratio. -/
theorem C6_velocity_piecewise_linear (carSpeed lifeRatio pointPosition vf : ℚ)
    (fl : FlowLine)
    (hvf : vf = clampQ (mixQ (clampQ (fl.velocity / 12) 0 1)
      (clampQ (fl.velocity / 12) 0 1 + 3/10) (carSpeed / 350)) 0 1) :
    (vf < 1/4 → calculateFlowColor carSpeed lifeRatio pointPosition fl =
      scaleV lifeRatio (lerpColor ⟨0, 0, 1⟩ ⟨0, 1, 1⟩ (vf / (1/4)))) ∧
    (¬ vf < 1/4 → vf < 1/2 → calculateFlowColor carSpeed lifeRatio pointPosition fl =
      scaleV lifeRatio (lerpColor ⟨0, 1, 1⟩ ⟨0, 1, 0⟩ ((vf - 1/4) / (1/4)))) ∧
    (¬ vf < 1/2 → vf < 3/4 → calculateFlowColor carSpeed lifeRatio pointPosition fl =
      scaleV lifeRatio (lerpColor ⟨0, 1, 0⟩ ⟨1, 1, 0⟩ ((vf - 1/2) / (1/4)))) ∧
    (¬ vf < 3/4 → calculateFlowColor carSpeed lifeRatio pointPosition fl =
      scaleV lifeRatio (lerpColor ⟨1, 1, 0⟩ ⟨1, 0, 0⟩ ((vf - 3/4) / (1/4)))) := by
  subst hvf
  simp only [calculateFlowColor, lerpColor]
  refine ⟨fun h1 => ?_, fun h1 h2 => ?_, fun h2 h3 => ?_, fun h3 => ?_⟩
  · rw [if_pos h1]
    simp only [scaleV, vadd, vsub, Vec3.mk.injEq]
    refine ⟨by ring, by ring, by ring⟩
  · rw [if_neg h1, if_pos h2]
    simp only [scaleV, vadd, vsub, Vec3.mk.injEq]
    refine ⟨by ring, by ring, by ring⟩
  · rw [if_neg (by intro h; exact h2 (lt_trans h (by norm_num))), if_neg h2, if_pos h3]
    simp only [scaleV, vadd, vsub, Vec3.mk.injEq]
    refine ⟨by ring, by ring, by ring⟩
  · rw [if_neg (by intro h; exact h3 (lt_trans h (by norm_num))),
      if_neg (by intro h; exact h3 (lt_trans h (by norm_num))), if_neg h3]
    simp only [scaleV, vadd, vsub, Vec3.mk.injEq]
    refine ⟨by ring, by ring, by ring⟩

/-- C6 witness: the first sub-range evaluated on the slow sample line
(velocity factor 0, color deep blue). -/
theorem C6_velocity_piecewise_linear_witness :
    calculateFlowColor 0 1 0 pressureLineA =
      scaleV 1 (lerpColor ⟨0, 0, 1⟩ ⟨0, 1, 1⟩
        (clampQ (mixQ (clampQ (pressureLineA.velocity / 12) 0 1)
          (clampQ (pressureLineA.velocity / 12) 0 1 + 3/10) ((0:ℚ) / 350)) 0 1 / (1/4))) :=
  (C6_velocity_piecewise_linear 0 1 0 _ pressureLineA rfl).1 (by decide)

/-- C7 counterexample: a reachable post-reset state (life sample at the
top of the range, car speed 0) produces a head color whose blue channel
is `1.32 > 1` in the same `update` call, because the life ratio right
after a reset can exceed 1. -/
theorem C7_channel_exceeds_one :
    1 < ((updateFlowLine sampleEnv sampleState (1/50) dyingLine resetRng).1.colors.headD
      ⟨0, 0, 0⟩).z := by
  decide

/-- C7 (amended): the color mapper is a deterministic function of
velocity, car speed and life ratio (pressure, zone and trail position are
never read), and all three channels lie in `[0, 1]` whenever the life
ratio does — the unconditional channel bound fails only through life
ratios above 1. -/
theorem C7_color_channel_bounds (carSpeed lifeRatio pointPosition : ℚ) (fl : FlowLine)
    (h0 : 0 ≤ lifeRatio) (h1 : lifeRatio ≤ 1) :
    (0 ≤ (calculateFlowColor carSpeed lifeRatio pointPosition fl).x ∧
      (calculateFlowColor carSpeed lifeRatio pointPosition fl).x ≤ 1) ∧
    (0 ≤ (calculateFlowColor carSpeed lifeRatio pointPosition fl).y ∧
      (calculateFlowColor carSpeed lifeRatio pointPosition fl).y ≤ 1) ∧
    (0 ≤ (calculateFlowColor carSpeed lifeRatio pointPosition fl).z ∧
      (calculateFlowColor carSpeed lifeRatio pointPosition fl).z ≤ 1) := by
  simp only [calculateFlowColor]
  set vf := clampQ (mixQ (clampQ (fl.velocity / 12) 0 1)
    (clampQ (fl.velocity / 12) 0 1 + 3/10) (carSpeed / 350)) 0 1 with hvf
  have hv0 : 0 ≤ vf := clampQ01_nonneg _
  have hv1 : vf ≤ 1 := clampQ01_le_one _
  split_ifs with hb1 hb2 hb3
  · have ht : vf / (1/4) = 4 * vf := by ring
    simp only [scaleV, ht]
    refine ⟨mul_mem01 (by norm_num) (by norm_num) h0 h1, ?_,
      mul_mem01 (by norm_num) (by norm_num) h0 h1⟩
    exact mul_mem01 (by linarith) (by linarith) h0 h1
  · have ht : (vf - 1/4) / (1/4) = 4 * vf - 1 := by ring
    simp only [scaleV, ht]
    refine ⟨mul_mem01 (by norm_num) (by norm_num) h0 h1,
      mul_mem01 (by norm_num) (by norm_num) h0 h1, ?_⟩
    exact mul_mem01 (by linarith) (by linarith) h0 h1
  · have ht : (vf - 1/2) / (1/4) = 4 * vf - 2 := by ring
    simp only [scaleV, ht]
    refine ⟨?_, mul_mem01 (by norm_num) (by norm_num) h0 h1,
      mul_mem01 (by norm_num) (by norm_num) h0 h1⟩
    exact mul_mem01 (by linarith) (by linarith) h0 h1
  · have ht : (vf - 3/4) / (1/4) = 4 * vf - 3 := by ring
    simp only [scaleV, ht]
    refine ⟨mul_mem01 (by norm_num) (by norm_num) h0 h1, ?_,
      mul_mem01 (by norm_num) (by norm_num) h0 h1⟩
    exact mul_mem01 (by linarith) (by linarith) h0 h1

/-- C7 witness: the channel bounds evaluated on the dying sample line at
life ratio 1. -/
theorem C7_color_channel_bounds_witness :
    (0 ≤ (calculateFlowColor 0 1 0 dyingLine).x ∧
      (calculateFlowColor 0 1 0 dyingLine).x ≤ 1) ∧
    (0 ≤ (calculateFlowColor 0 1 0 dyingLine).y ∧
      (calculateFlowColor 0 1 0 dyingLine).y ≤ 1) ∧
    (0 ≤ (calculateFlowColor 0 1 0 dyingLine).z ∧
      (calculateFlowColor 0 1 0 dyingLine).z ≤ 1) :=
  C7_color_channel_bounds 0 1 0 dyingLine (by decide) (by decide)

/-- C8 counterexample: out-of-range setter inputs are stored verbatim,
not clamped — a negative car speed and a negative minimum distance land
in the state unchanged. -/
theorem C8_negative_inputs_stored :
    (setCarSpeed sampleState (-5)).carSpeed < 0 ∧
    (setDensity sampleState (-1)).minDistance < 0 := by
  decide

/-- C8 (amended): every numeric parameter setter stores its argument
verbatim, with no clamping or validation of any kind. -/
theorem C8_setters_verbatim (st : FlowState) (v : ℚ) :
    (setCarSpeed st v).carSpeed = v ∧
    (setDensity st v).minDistance = v ∧
    (setCarPosition st v).carPosition = v := ⟨rfl, rfl, rfl⟩

/-- C9 counterexample: a front-wing (non-floor) line reset with the same
samples at car speeds 0 and 250 km/h receives different lives, so the
speed-dependent life reduction is not restricted to floor-zone lines. -/
theorem C9_life_depends_on_speed :
    dyingLine.zoneType ≠ 4 ∧
    (resetFlowLine sampleEnv sampleState dyingLine zeroRng).1.life ≠
      (resetFlowLine sampleEnv { sampleState with carSpeed := 250 } dyingLine zeroRng).1.life := by
  decide

/-- C9 (amended): for every zone, the life assigned by `resetFlowLine` is
`initialLife × (0.8 + 0.4·u) × (1.1 − 0.2·carSpeed/250)` — the
speed-dependent factor applies unconditionally, not only to floor-zone
entities. -/
theorem C9_reset_life_formula (env : Env) (st : FlowState) (fl : FlowLine) (g : Rng)
    (zone : ℕ) :
    (resetFlowLine env st { fl with zoneType := zone } g).1.life =
      fl.initialLife * (8/10 + g 6 * (12/10 - 8/10)) *
        (11/10 - st.carSpeed / 250 * (2/10)) := rfl

/-- C10 (confirmed): a tick with the relative-dynamics toggle disabled
leaves `lastCarPosition` stale (given no reset), and the first tick after
re-enabling adds the entire accumulated difference between the current
car position and that stale value to the z coordinate of every surviving
pre-existing trail point in one step. -/
theorem C10_stale_lastCarPosition (env : Env) (st1 st2 : FlowState) (dt1 dt2 : ℚ)
    (fl : FlowLine) (g1 g2 : Rng)
    (hoff : st1.relativeDynamics = false)
    (hon : st2.relativeDynamics = true)
    (h1 : ¬ fl.life - dt1 ≤ 0)
    (h2 : ¬ fl.life - dt1 - dt2 ≤ 0) :
    (updateFlowLine env st1 dt1 fl g1).1.lastCarPosition = fl.lastCarPosition ∧
    (updateFlowLine env st2 dt2 (updateFlowLine env st1 dt1 fl g1).1 g2).1.lastCarPosition =
      st2.carPosition ∧
    (updateFlowLine env st2 dt2 (updateFlowLine env st1 dt1 fl g1).1 g2).1.points.tail =
      ((if (updateFlowLine env st1 dt1 fl g1).1.maxPoints ≤
            (updateFlowLine env st1 dt1 fl g1).1.points.length
        then (updateFlowLine env st1 dt1 fl g1).1.points.dropLast
        else (updateFlowLine env st1 dt1 fl g1).1.points).map
          (shiftZ (st2.carPosition - fl.lastCarPosition))) := by
  have hlast1 : (updateFlowLine env st1 dt1 fl g1).1.lastCarPosition = fl.lastCarPosition := by
    rw [updateFlowLine_of_alive env st1 dt1 fl g1 h1, advanceHead_lastCarPosition]
    simp [reseat, hoff]
  have hlife1 : (updateFlowLine env st1 dt1 fl g1).1.life = fl.life - dt1 :=
    updateFlowLine_life_alive env st1 dt1 fl g1 h1
  have h2' : ¬ (updateFlowLine env st1 dt1 fl g1).1.life - dt2 ≤ 0 := by
    rw [hlife1]; exact h2
  refine ⟨hlast1, ?_, ?_⟩
  · rw [updateFlowLine_of_alive env st2 dt2 _ g2 h2', advanceHead_lastCarPosition]
    simp [reseat, hon]
  · rw [updateFlowLine_of_alive env st2 dt2 _ g2 h2', advanceHead_tail]
    simp only [reseat, hon, if_true, List.length_map]
    rw [hlast1]
    split_ifs
    · exact (List.map_dropLast _ _).symm
    · rfl

/-- C10 witness: the statement evaluated with the toggle off while the
car moved to position 2, then on with the car at position 5. -/
theorem C10_stale_lastCarPosition_witness :
    (updateFlowLine sampleEnv toggleOffState (1/50) longLine halfRng).1.lastCarPosition =
      longLine.lastCarPosition ∧
    (updateFlowLine sampleEnv toggleOnState (1/50)
        (updateFlowLine sampleEnv toggleOffState (1/50) longLine halfRng).1
        halfRng).1.lastCarPosition = toggleOnState.carPosition ∧
    (updateFlowLine sampleEnv toggleOnState (1/50)
        (updateFlowLine sampleEnv toggleOffState (1/50) longLine halfRng).1
        halfRng).1.points.tail =
      ((if (updateFlowLine sampleEnv toggleOffState (1/50) longLine halfRng).1.maxPoints ≤
            (updateFlowLine sampleEnv toggleOffState (1/50) longLine halfRng).1.points.length
        then (updateFlowLine sampleEnv toggleOffState (1/50) longLine halfRng).1.points.dropLast
        else (updateFlowLine sampleEnv toggleOffState (1/50) longLine halfRng).1.points).map
          (shiftZ (toggleOnState.carPosition - longLine.lastCarPosition))) :=
  C10_stale_lastCarPosition sampleEnv toggleOffState toggleOnState (1/50) (1/50) longLine
    halfRng halfRng rfl rfl (by decide) (by decide)

end F1Aero
